import Mathlib

/-!
Shallow embedding of the NomadEvents core modules
(`src/lib/local-events.ts`, `src/lib/friends.ts`, `src/lib/location.ts`,
`src/lib/local-dms.ts`, `src/lib/local-profile.ts`) together with proofs
about the event-participation state machine, the friendship graph, the
location privacy update and the simulated DM replies.

The remote relational store (Supabase) is modelled as an explicit `Store`
value threaded through the operations; the globally resolved authenticated
user (`supabase.auth.getUser`) is passed as an `Option String` argument;
wall-clock timestamps, freshly generated ids and the results of
`Math.random()` are passed as arguments as well.  Schema drift (the
optional `status` column on `event_participants` and the optional
`auto_accept` column on `events`) is modelled by two capability booleans
on the store; a statement with the column absent makes the store report
the corresponding PostgREST/PostgreSQL error, exactly the errors whose
message text the TypeScript code inspects.
-/

namespace NomadEvents

/-- Status of an `event_participants` row (`src/lib/local-events.ts`). -/
inductive ParticipantStatus where
  | pending
  | approved
  | rejected
deriving DecidableEq, Repr

/-- Status of a `friendships` row (`src/lib/friends.ts`). -/
inductive FriendshipStatus where
  | pending
  | accepted
  | rejected
deriving DecidableEq, Repr

/-- An error reported by the store, with the PostgREST/PostgreSQL fields the
code inspects (`error.code`, `error.message`). -/
structure PgError where
  code : String
  message : String
deriving DecidableEq, Repr

/-- A row of the `events` table (the `SupabaseEvent` shape minus the joined
`profiles`, which is reconstructed at query time). `auto_accept` is optional:
`none` models both an absent column and a NULL value. -/
structure EventRow where
  id : String
  title : String
  description : Option String
  lat : Option Int
  lng : Option Int
  place_name : Option String
  emoji : String
  creator_id : String
  auto_accept : Option Bool
  created_at : String
deriving DecidableEq, Repr

/-- The `profiles` join shape `{ name, avatar_url, vibe }` embedded in a
`SupabaseEvent`. -/
structure JoinedProfile where
  name : Option String
  avatar_url : Option String
  vibe : Option String
deriving DecidableEq, Repr

/-- The resolved creator info on a `LocalEvent`. -/
structure CreatorInfo where
  name : String
  avatar_url : Option String
  vibe : Option String
deriving DecidableEq, Repr

/-- The `LocalEvent` application shape (`src/lib/local-events.ts`). -/
structure LocalEvent where
  id : String
  title : String
  description : Option String
  meeting_place : Option String
  meeting_lat : Option Int
  meeting_lng : Option Int
  emoji : String
  place_name : String
  creator_id : String
  auto_accept : Bool
  created_at : String
  creator : Option CreatorInfo
deriving DecidableEq, Repr

/-- A row of `event_participants`. `status` is optional: `none` models a row
stored while the `status` column was absent (or a NULL value). -/
structure ParticipantRow where
  event_id : String
  user_id : String
  status : Option ParticipantStatus
deriving DecidableEq, Repr

/-- A row of `friendships`. -/
structure FriendshipRow where
  id : String
  requester_id : String
  receiver_id : String
  status : FriendshipStatus
  created_at : String
deriving DecidableEq, Repr

/-- A row of `profiles` (the columns the verified operations touch). -/
structure ProfileRow where
  id : String
  name : Option String
  avatar_url : Option String
  vibe : Option String
  bio : Option String
  is_ghost : Option Bool
  latitude : Option Int
  longitude : Option Int
  last_seen : Option String
deriving DecidableEq, Repr

/-- The relational store.  The two booleans model schema drift: whether the
optional `event_participants.status` and `events.auto_accept` columns have
been migrated into the database. -/
structure Store where
  events : List EventRow
  participants : List ParticipantRow
  friendships : List FriendshipRow
  profiles : List ProfileRow
  hasParticipantStatusColumn : Bool
  hasAutoAcceptColumn : Bool
deriving DecidableEq, Repr

/-- Does the character list start with the given pattern? -/
def hasPrefixChars : List Char → List Char → Bool
  | _, [] => true
  | [], _ :: _ => false
  | a :: as, b :: bs => a == b && hasPrefixChars as bs

/-- Does the character list contain the pattern as a contiguous run? -/
def includesFrom (needle : List Char) : List Char → Bool
  | [] => hasPrefixChars [] needle
  | a :: t => hasPrefixChars (a :: t) needle || includesFrom needle t

/-- JavaScript `string.includes(needle)`, for the error-message checks. -/
def includesSubstr (hay needle : String) : Bool :=
  includesFrom needle.data hay.data

/-- Look a profile row up by id. -/
def findProfile (s : Store) (uid : String) : Option ProfileRow :=
  s.profiles.find? (fun p => p.id == uid)

/-- Model of `mapToLocalEvent` (`src/lib/local-events.ts`): maps a Supabase event row
(with its optionally joined creator profile) to the `LocalEvent` shape.
`auto_accept: row.auto_accept !== false` makes `true` the default for an
absent or NULL value. -/
def mapToLocalEvent (row : EventRow) (profiles : Option JoinedProfile) : LocalEvent :=
  { id := row.id
    title := row.title
    description := row.description
    meeting_place := row.place_name
    meeting_lat := row.lat
    meeting_lng := row.lng
    emoji := if row.emoji == "" then "📍" else row.emoji
    place_name := row.place_name.getD ""
    creator_id := row.creator_id
    auto_accept := row.auto_accept != some false
    created_at := row.created_at
    creator := profiles.map fun p =>
      { name := p.name.getD "User"
        avatar_url := p.avatar_url
        vibe := p.vibe } }

/-- Model of `getEventById` (`src/lib/local-events.ts`): select the event row joined
with the creator profile, mapped through `mapToLocalEvent`; `none` when the
row is absent. -/
def getEventById (s : Store) (id : String) : Option LocalEvent :=
  (s.events.find? (fun e => e.id == id)).map fun e =>
    mapToLocalEvent e ((findProfile s e.creator_id).map fun p =>
      { name := p.name, avatar_url := p.avatar_url, vibe := p.vibe })

/-- Does a participant row belong to the composite key `(eid, uid)`? -/
def participantKeyMatches (eid uid : String) (p : ParticipantRow) : Bool :=
  p.event_id == eid && p.user_id == uid

/-- The error the store reports when a statement references the
`event_participants.status` column while it is absent. -/
def statusColumnMissingErr : PgError :=
  { code := "42703"
    message := "column \"status\" of relation \"event_participants\" does not exist" }

/-- The store's upsert on `event_participants` with
`onConflict: 'event_id,user_id'`.  When the payload carries a `status` value
but the column is absent, the store reports `statusColumnMissingErr`.  When a
row for the key already exists the upsert normally overwrites the payload
columns; `dupRace` models the racy schedule in which the store instead
surfaces the unique violation `23505` and leaves the table unchanged. -/
def upsertParticipant (s : Store) (eid uid : String) (st : Option ParticipantStatus)
    (dupRace : Bool) : Option PgError × Store :=
  if st.isSome && !s.hasParticipantStatusColumn then
    (some statusColumnMissingErr, s)
  else if s.participants.any (participantKeyMatches eid uid) then
    if dupRace then
      (some { code := "23505", message := "duplicate key value violates unique constraint" }, s)
    else
      (none, { s with participants := s.participants.map fun p =>
        if participantKeyMatches eid uid p then
          match st with
          | some v => { p with status := some v }
          | none => p
        else p })
  else
    (none, { s with participants :=
      s.participants ++ [{ event_id := eid, user_id := uid, status := st }] })

/-- Model of `joinEvent` (`src/lib/local-events.ts`): reads the event's `auto_accept`
flag, upserts the participant row with status `approved`/`pending`
accordingly, tolerates the unique violation `23505`, and on the
missing-`status`-column error retries the upsert without a status and
returns `approved`. -/
def joinEvent (s : Store) (eventId userId : String) (dupRace : Bool) :
    Except String (ParticipantStatus × Store) :=
  match getEventById s eventId with
  | none => .error "Event not found"
  | some event =>
    let status : ParticipantStatus :=
      if event.auto_accept then .approved else .pending
    match upsertParticipant s eventId userId (some status) dupRace with
    | (none, s1) => .ok (status, s1)
    | (some e, s1) =>
      if e.code == "23505" then .ok (status, s1)
      else if includesSubstr e.message "status" && includesSubstr e.message "does not exist" then
        match upsertParticipant s eventId userId none dupRace with
        | (none, s2) => .ok (.approved, s2)
        | (some e2, s2) =>
          if e2.code == "23505" then .ok (.approved, s2)
          else .error e2.message
      else .error e.message

/-- Number of participant rows stored for the composite key `(eid, uid)`. -/
def countParticipant (s : Store) (eid uid : String) : Nat :=
  s.participants.countP (participantKeyMatches eid uid)

/-- Model of `getMyParticipantStatus` (`src/lib/local-events.ts`): selects the `status`
of the caller's participant row (`null` when the row or its status is
absent); when the store reports that the `status` column does not exist, it
re-queries for mere row existence and reports `approved` for an existing
row, `null` otherwise. -/
def getMyParticipantStatus (s : Store) (eid uid : String) : Option ParticipantStatus :=
  if s.hasParticipantStatusColumn then
    match s.participants.find? (participantKeyMatches eid uid) with
    | some p => p.status
    | none => none
  else
    let e := statusColumnMissingErr
    if includesSubstr e.message "status" && includesSubstr e.message "does not exist" then
      if s.participants.any (participantKeyMatches eid uid) then some .approved else none
    else none

/-- An entry of the `getEventParticipantsWithStatus` result. -/
structure ParticipantWithProfile where
  id : String
  name : String
  avatar_url : Option String
  vibe : Option String
  status : ParticipantStatus
deriving DecidableEq, Repr

/-- Resolve a participant row against `profiles` the way the
`profiles:user_id (...)` join plus the `row.profiles` truthiness filter
does: rows whose user has no profile are dropped. -/
def joinParticipantProfile (s : Store) (st : ParticipantStatus) (p : ParticipantRow) :
    Option ParticipantWithProfile :=
  (findProfile s p.user_id).map fun pr =>
    { id := pr.id
      name := pr.name.getD "User"
      avatar_url := pr.avatar_url
      vibe := pr.vibe
      status := st }

/-- Model of `getEventParticipantsWithStatus` (`src/lib/local-events.ts`): selects the
event's participant rows joined with profiles, each with
`status || 'approved'`; when the store reports the missing `status` column,
falls back to the same query without the column and reports every
participant as `approved`. -/
def getEventParticipantsWithStatus (s : Store) (eid : String) :
    List ParticipantWithProfile :=
  let rows := s.participants.filter (fun p => p.event_id == eid)
  if s.hasParticipantStatusColumn then
    rows.filterMap fun p => joinParticipantProfile s (p.status.getD .approved) p
  else
    let e := statusColumnMissingErr
    if includesSubstr e.message "status" && includesSubstr e.message "does not exist" then
      rows.filterMap fun p => joinParticipantProfile s .approved p
    else []

/-! Friendship graph (`src/lib/friends.ts`). -/

/-- The `{ id, name, avatar_url }` profile summary of `friends.ts`. -/
structure ProfileBasic where
  id : String
  name : Option String
  avatar_url : Option String
deriving DecidableEq, Repr

/-- Project a profile row to its `ProfileBasic` summary. -/
def profileBasicOf (p : ProfileRow) : ProfileBasic :=
  { id := p.id, name := p.name, avatar_url := p.avatar_url }

/-- An entry of the `getMyFriends` result.  The TypeScript casts the joined
row to a non-null `ProfileBasic`; the join actually yields `null` when the
other party has no profile row, hence the `Option`. -/
structure FriendWithProfile where
  friendshipId : String
  user : Option ProfileBasic
deriving DecidableEq, Repr

/-- The store's insert into `friendships`, which carries a uniqueness
constraint on the ordered pair `(requester_id, receiver_id)`: inserting a
second row for the same ordered pair reports `23505`. -/
def insertFriendship (s : Store) (row : FriendshipRow) : Option PgError × Store :=
  if s.friendships.any (fun r =>
      r.requester_id == row.requester_id && r.receiver_id == row.receiver_id) then
    (some { code := "23505"
            message := "duplicate key value violates unique constraint" }, s)
  else
    (none, { s with friendships := s.friendships ++ [row] })

/-- Model of `sendFriendRequest` (`src/lib/friends.ts`): rejects an unauthenticated
caller and a self-request, inserts a `pending` row and maps the uniqueness
violation `23505` to success.  `me` is the resolved authenticated user;
`newId`/`now` are the store-generated id and timestamp of the new row. -/
def sendFriendRequest (me : Option String) (targetUserId : String)
    (newId now : String) (s : Store) : Store × Option String :=
  match me with
  | none => (s, some "Not authenticated")
  | some uid =>
    if targetUserId == uid then (s, some "Cannot add yourself")
    else
      match insertFriendship s
          { id := newId, requester_id := uid, receiver_id := targetUserId
            status := .pending, created_at := now } with
      | (none, s1) => (s1, none)
      | (some e, s1) =>
        if e.code == "23505" then (s1, none) else (s1, some e.message)

/-- Model of `acceptRequest` (`src/lib/friends.ts`): a single conditional update
setting `status := accepted` on rows with `id = friendshipId`,
`receiver_id = me` and `status = pending`; returns `{ error: null }` whether
or not any row matched. -/
def acceptRequest (me : Option String) (friendshipId : String) (s : Store) :
    Store × Option String :=
  match me with
  | none => (s, some "Not authenticated")
  | some uid =>
    ({ s with friendships := s.friendships.map fun r =>
        if r.id == friendshipId && r.receiver_id == uid &&
            r.status == FriendshipStatus.pending then
          { r with status := .accepted }
        else r }, none)

/-- Model of `declineRequest` (`src/lib/friends.ts`): the same conditional update with
`status := rejected`. -/
def declineRequest (me : Option String) (friendshipId : String) (s : Store) :
    Store × Option String :=
  match me with
  | none => (s, some "Not authenticated")
  | some uid =>
    ({ s with friendships := s.friendships.map fun r =>
        if r.id == friendshipId && r.receiver_id == uid &&
            r.status == FriendshipStatus.pending then
          { r with status := .rejected }
        else r }, none)

/-- Model of `getMyFriends` (`src/lib/friends.ts`): accepted friendships where the
caller is requester or receiver, each resolved to the *other* party's
profile summary. -/
def getMyFriends (me : Option String) (s : Store) : List FriendWithProfile :=
  match me with
  | none => []
  | some uid =>
    (s.friendships.filter fun r =>
        r.status == FriendshipStatus.accepted &&
          (r.requester_id == uid || r.receiver_id == uid)).map fun r =>
      { friendshipId := r.id
        user :=
          if r.requester_id == uid then (findProfile s r.receiver_id).map profileBasicOf
          else (findProfile s r.requester_id).map profileBasicOf }

/-- Number of friendship rows stored for the ordered pair `(a, b)`. -/
def countFriendship (s : Store) (a b : String) : Nat :=
  s.friendships.countP (fun r => r.requester_id == a && r.receiver_id == b)

/-! Location privacy (`src/lib/location.ts`). -/

/-- Model of `updateMyLocation` (`src/lib/location.ts`): resolves the caller's profile
(`getProfile`, whose `is_ghost` is `data.is_ghost === true`, `false` when the
row is absent) and updates the caller's `profiles` row: ghost mode on writes
`last_seen` and nulls the coordinates; ghost mode off writes `latitude`,
`longitude` and `last_seen`. -/
def updateMyLocation (user : Option String) (lat lng : Int) (now : String)
    (s : Store) : Store :=
  match user with
  | none => s
  | some uid =>
    let isGhost : Bool :=
      match findProfile s uid with
      | some p => p.is_ghost == some true
      | none => false
    { s with profiles := s.profiles.map fun p =>
        if p.id == uid then
          if isGhost then
            { p with last_seen := some now, latitude := none, longitude := none }
          else
            { p with last_seen := some now, latitude := some lat, longitude := some lng }
        else p }

/-! Event creation (`src/lib/local-events.ts`). -/

/-- The `createEvent` input shape. -/
structure CreateEventInput where
  title : String
  description : Option String
  meeting_place : Option String
  meeting_lat : Option Int
  meeting_lng : Option Int
  emoji : String
  place_name : String
  place_category : Option String
  creator_id : String
  auto_accept : Option Bool
deriving DecidableEq, Repr

/-- The store's insert into `events`.  When the payload carries an
`auto_accept` value but that column is absent, PostgREST reports `PGRST204`
naming the column. -/
def insertEvent (s : Store) (row : EventRow) : Option PgError × Store :=
  if row.auto_accept.isSome && !s.hasAutoAcceptColumn then
    (some { code := "PGRST204"
            message := "Could not find the \x27auto_accept\x27 column of \x27events\x27 in the schema cache" }, s)
  else
    (none, { s with events := s.events ++ [row] })

/-- Model of `createEvent` (`src/lib/local-events.ts`): builds the payload with
`place_name: input.place_name || input.meeting_place`,
`emoji: input.emoji || '📍'` and `auto_accept: input.auto_accept !== false`,
inserts it, retries without `auto_accept` on the `PGRST204`
missing-column error, and returns the stored row through `mapToLocalEvent`.
It performs no validation of the title. -/
def createEvent (input : CreateEventInput) (newId now : String) (s : Store) :
    Except String (LocalEvent × Store) :=
  let payload : EventRow :=
    { id := newId
      title := input.title
      description := input.description
      place_name :=
        if input.place_name == "" then input.meeting_place else some input.place_name
      lat := input.meeting_lat
      lng := input.meeting_lng
      emoji := if input.emoji == "" then "📍" else input.emoji
      creator_id := input.creator_id
      auto_accept := some (input.auto_accept != some false)
      created_at := now }
  match insertEvent s payload with
  | (none, s1) => .ok (mapToLocalEvent payload none, s1)
  | (some e, _) =>
    if e.code == "PGRST204" && includesSubstr e.message "auto_accept" then
      let payload2 : EventRow := { payload with auto_accept := none }
      match insertEvent s payload2 with
      | (none, s2) => .ok (mapToLocalEvent payload2 none, s2)
      | (some e2, _) => .error e2.message
    else .error e.message

/-! Direct messages with simulated replies (`src/lib/local-dms.ts`). -/

/-- The denormalized author snapshot on a DM message. -/
structure DMAuthor where
  name : String
  avatar_url : Option String
  vibe : Option String
deriving DecidableEq, Repr

/-- Shape of a `DMMessage` (`src/lib/local-dms.ts`). -/
structure DMMessage where
  id : String
  chatId : String
  senderId : String
  body : String
  created_at : String
  author : DMAuthor
deriving DecidableEq, Repr

/-- Shape of a `DMChat` (`src/lib/local-dms.ts`): keyed by the counterpart's user id. -/
structure DMChat where
  id : String
  userName : String
  userAvatar : Option String
  userVibe : Option String
  lastMessage : String
  updatedAt : String
deriving DecidableEq, Repr

/-- The AsyncStorage-backed DM state: the chat list and the message list. -/
structure DMStore where
  chats : List DMChat
  messages : List DMMessage
deriving DecidableEq, Repr

/-- The designated demo identities that get a simulated reply. -/
def demoNames : List String := ["aisuluu", "timur", "jibek", "max", "aida"]

/-- The generic fallback canned-reply pool. -/
def genericReplies : List String :=
  ["Привет!", "Как дела?", "Интересно!", "👍", "Давай пообщаемся!"]

/-- Model of `BOT_REPLIES` (`src/lib/local-dms.ts`): the per-identity canned-reply
pools, looked up by the lower-cased user name. -/
def botReplies (nameLower : String) : Option (List String) :=
  if nameLower == "aisuluu" then
    some ["Привет! Как дела? 👋",
          "О, приятно познакомиться!",
          "Давай как-нибудь встретимся на кофе ☕",
          "Что нового?",
          "Звучит интересно! Расскажи больше"]
  else if nameLower == "timur" then
    some ["Йо! Что делаешь?",
          "Давай пересечемся на выходных",
          "Слышал про новый стартап? 🚀",
          "Как там твой проект?",
          "Я сейчас в Sierra, приходи!"]
  else if nameLower == "jibek" then
    some ["Привет! 😊",
          "Классная идея!",
          "Давай на хайкинг в выходные?",
          "Как настроение?",
          "Отличная погода сегодня, не думаешь?"]
  else if nameLower == "max" then
    some ["Hey! What\x27s up?",
          "Sounds good to me!",
          "Let\x27s grab coffee sometime",
          "Working on something cool, will share soon",
          "Check out this article I found"]
  else if nameLower == "aida" then
    some ["Hi there!",
          "Let\x27s practice English together! 🗣️",
          "Have you been to Ala-Archa?",
          "I love that place too!",
          "Nice to meet you!"]
  else none

/-- The canned-reply pool used for a given (original-case) user name:
the per-identity pool, or the generic pool for an unrecognized name. -/
def replyPool (userName : String) : List String :=
  (botReplies userName.toLower).getD genericReplies

/-- Model of `getRandomReply` (`src/lib/local-dms.ts`): picks
`replies[Math.floor(random * replies.length)]` from the identity's pool.
The `Math.random()` draw is passed in as the rational `r ∈ [0, 1)`. -/
def getRandomReply (userName : String) (r : ℚ) : String :=
  let replies := replyPool userName
  replies.getD (Int.toNat ⌊r * replies.length⌋) ""

/-- The 50-character last-message preview truncation of `sendDMMessage`. -/
def truncatePreview (body : String) : String :=
  if body.length > 50 then (body.take 50).push '.' |>.push '.' |>.push '.' else body

/-- A simulated reply scheduled by `sendDMMessage`: the timer delay in
milliseconds (`2000 + random * 2000`) and the reply message the timer
callback will append. -/
structure ScheduledReply where
  delayMs : ℚ
  msg : DMMessage
deriving DecidableEq, Repr

/-- Model of `sendDMMessage` (`src/lib/local-dms.ts`): appends the sender's message,
updates the chat's preview and timestamp, and — when `simulateReply` is on
and the chat's counterpart name is one of the demo identities — schedules a
simulated reply with `senderId = chatId` after `2000 + rDelay * 2000`
milliseconds, its body drawn from the counterpart's canned pool with the
draw `rReply`.  Fresh ids, timestamps and both random draws are passed in.
Returns the sent message, the updated store and the scheduled reply, if
any. -/
def sendDMMessage (chatId body myUserId : String) (myProfile : DMAuthor)
    (simulateReply : Bool) (msgId now replyId replyNow : String)
    (rDelay rReply : ℚ) (s : DMStore) :
    DMMessage × DMStore × Option ScheduledReply :=
  let msg : DMMessage :=
    { id := msgId, chatId := chatId, senderId := myUserId, body := body
      created_at := now, author := myProfile }
  let messages1 := s.messages ++ [msg]
  let chats1 := s.chats.map fun c =>
    if c.id == chatId then { c with lastMessage := truncatePreview body, updatedAt := now }
    else c
  let sched : Option ScheduledReply :=
    if simulateReply then
      match chats1.find? (fun c => c.id == chatId) with
      | some chat =>
        if demoNames.contains chat.userName.toLower then
          some { delayMs := 2000 + rDelay * 2000
                 msg := { id := replyId, chatId := chatId, senderId := chatId
                          body := getRandomReply chat.userName rReply
                          created_at := replyNow
                          author := { name := chat.userName
                                      avatar_url := chat.userAvatar
                                      vibe := chat.userVibe } } }
        else none
      | none => none
    else none
  (msg, { chats := chats1, messages := messages1 }, sched)

/-! Helper lemmas. -/

/-- Updating the `status` of the rows of a key neither creates nor removes
rows of that key. -/
lemma countP_statusUpdate (l : List ParticipantRow) (eid uid : String)
    (st : ParticipantStatus) :
    (l.map fun p => if participantKeyMatches eid uid p then
        { p with status := some st } else p).countP (participantKeyMatches eid uid) =
      l.countP (participantKeyMatches eid uid) := by
  induction l with
  | nil => rfl
  | cons a t ih =>
    by_cases h : participantKeyMatches eid uid a
    · have h2 : participantKeyMatches eid uid { a with status := some st } = true := by
        simpa [participantKeyMatches] using h
      simp [List.countP_cons, h, h2, ih]
    · have h2 : participantKeyMatches eid uid a = false := by
        simpa using h
      simp [List.countP_cons, h2, ih]

/-- A fresh participant row matches its own key. -/
lemma participantKeyMatches_self (eid uid : String) (st : Option ParticipantStatus) :
    participantKeyMatches eid uid { event_id := eid, user_id := uid, status := st } = true := by
  simp [participantKeyMatches]

/-- On a store with the `status` column present, a non-racy `joinEvent`
against an existing event succeeds with the status dictated by the event's
`auto_accept` flag and leaves a participant row carrying that status. -/
lemma joinEvent_auto_accept_aux
    (s : Store) (eid uid : String) (ev : LocalEvent)
    (hev : getEventById s eid = some ev)
    (hcol : s.hasParticipantStatusColumn = true) :
    ∃ s1, joinEvent s eid uid false =
        .ok (if ev.auto_accept then .approved else .pending, s1) ∧
      ∃ p ∈ s1.participants, p.event_id = eid ∧ p.user_id = uid ∧
        p.status = some (if ev.auto_accept then ParticipantStatus.approved
          else ParticipantStatus.pending) := by
  unfold joinEvent
  rw [hev]
  simp only [upsertParticipant, hcol, Option.isSome_some, Bool.not_true,
    Bool.and_false, Bool.false_eq_true, if_false, if_neg, Bool.and_self]
  by_cases h : s.participants.any (participantKeyMatches eid uid) = true
  · simp only [h, if_true, if_false, Bool.false_eq_true]
    refine ⟨_, rfl, ?_⟩
    obtain ⟨p0, hp0mem, hp0key⟩ := List.any_eq_true.mp h
    refine ⟨{ p0 with status := some (if ev.auto_accept then .approved else .pending) },
      ?_, ?_, ?_, rfl⟩
    · refine List.mem_map.mpr ⟨p0, hp0mem, ?_⟩
      simp [hp0key]
    · have := hp0key
      simp only [participantKeyMatches, Bool.and_eq_true, beq_iff_eq] at this
      exact this.1
    · have := hp0key
      simp only [participantKeyMatches, Bool.and_eq_true, beq_iff_eq] at this
      exact this.2
  · simp only [Bool.not_eq_true] at h
    simp only [h, Bool.false_eq_true, if_false]
    refine ⟨_, rfl, ?_⟩
    refine ⟨⟨eid, uid, some (if ev.auto_accept then .approved else .pending)⟩, ?_, rfl, rfl, rfl⟩
    simp

/-- C1: `joinEvent(E, u)` reads `E`'s `auto_accept` flag and returns — and
upserts the participant row with — status `approved` when `auto_accept` is
true and `pending` when it is false. -/
theorem joinEvent_status_follows_auto_accept
    (s : Store) (eid uid : String) (ev : LocalEvent)
    (hev : getEventById s eid = some ev)
    (hcol : s.hasParticipantStatusColumn = true) :
    ∃ s1, joinEvent s eid uid false =
        .ok (if ev.auto_accept then .approved else .pending, s1) ∧
      ∃ p ∈ s1.participants, p.event_id = eid ∧ p.user_id = uid ∧
        p.status = some (if ev.auto_accept then ParticipantStatus.approved
          else ParticipantStatus.pending) :=
  joinEvent_auto_accept_aux s eid uid ev hev hcol

/-- A concrete event row used by the witnesses: auto-accept on. -/
def demoEventRow : EventRow :=
  { id := "e1", title := "Coffee Walk", description := none, lat := none, lng := none
    place_name := some "Sierra", emoji := "☕", creator_id := "creator"
    auto_accept := some true, created_at := "2026-01-01T00:00:00Z" }

/-- A concrete store with one event and nothing else; both optional columns
are present. -/
def demoStore : Store :=
  { events := [demoEventRow], participants := [], friendships := [], profiles := []
    hasParticipantStatusColumn := true, hasAutoAcceptColumn := true }

/-- The `LocalEvent` that `getEventById demoStore "e1"` yields. -/
def demoLocalEvent : LocalEvent :=
  mapToLocalEvent demoEventRow none

theorem joinEvent_status_follows_auto_accept_witness :
    ∃ s1, joinEvent demoStore "e1" "u1" false =
        .ok (if demoLocalEvent.auto_accept then .approved else .pending, s1) ∧
      ∃ p ∈ s1.participants, p.event_id = "e1" ∧ p.user_id = "u1" ∧
        p.status = some (if demoLocalEvent.auto_accept then ParticipantStatus.approved
          else ParticipantStatus.pending) :=
  joinEvent_status_follows_auto_accept demoStore "e1" "u1" demoLocalEvent (by decide) (by decide)

/-- A non-racy upsert against an existing row of the key rewrites statuses in
place: it succeeds and preserves the number of rows of the key and the rest
of the store. -/
lemma upsertParticipant_existing (s : Store) (eid uid : String) (st : ParticipantStatus)
    (hcol : s.hasParticipantStatusColumn = true)
    (hany : s.participants.any (participantKeyMatches eid uid) = true) :
    ∃ s', upsertParticipant s eid uid (some st) false = (none, s') ∧
      countParticipant s' eid uid = countParticipant s eid uid ∧
      s'.events = s.events ∧ s'.profiles = s.profiles ∧
      s'.hasParticipantStatusColumn = s.hasParticipantStatusColumn := by
  unfold upsertParticipant
  simp only [hcol, hany, Option.isSome_some, Bool.not_true, Bool.and_false,
    Bool.false_eq_true, if_false, if_true]
  refine ⟨_, rfl, ?_, rfl, rfl, rfl⟩
  simp only [countParticipant]
  exact countP_statusUpdate s.participants eid uid st

/-- C2: two `joinEvent(E, u)` calls — sequential, or with the second racing
into the unique violation `23505` that the upsert tolerates as a successful
no-op (`b1`, `b2` pick the schedule) — both succeed and leave exactly one
participant row for the pair `(E, u)`. -/
theorem joinEvent_double_join_single_row
    (s : Store) (eid uid : String) (ev : LocalEvent) (b1 b2 : Bool)
    (hev : getEventById s eid = some ev)
    (hcol : s.hasParticipantStatusColumn = true)
    (h0 : countParticipant s eid uid = 0) :
    ∃ st1 s1 st2 s2,
      joinEvent s eid uid b1 = .ok (st1, s1) ∧
      joinEvent s1 eid uid b2 = .ok (st2, s2) ∧
      countParticipant s2 eid uid = 1 := by
  have hany : s.participants.any (participantKeyMatches eid uid) = false := by
    rcases h : s.participants.any (participantKeyMatches eid uid) with _ | _
    · rfl
    · obtain ⟨p0, hp0mem, hp0key⟩ := List.any_eq_true.mp h
      have := List.countP_eq_zero.mp h0 p0 hp0mem
      exact absurd hp0key this
  set st : ParticipantStatus := if ev.auto_accept then .approved else .pending with hst
  set s1 : Store := { s with participants := s.participants ++ [⟨eid, uid, some st⟩] } with hs1
  have hjoin1 : joinEvent s eid uid b1 = .ok (st, s1) := by
    unfold joinEvent
    rw [hev]
    simp only [upsertParticipant, hcol, Option.isSome_some, Bool.not_true,
      Bool.and_false, Bool.false_eq_true, if_false, hany]
    simp [hs1, hcol]
  have hev1 : getEventById s1 eid = some ev := hev
  have hcol1 : s1.hasParticipantStatusColumn = true := hcol
  have hany1 : s1.participants.any (participantKeyMatches eid uid) = true := by
    simp [hs1, List.any_append, participantKeyMatches_self]
  have hcount1 : countParticipant s1 eid uid = 1 := by
    have hstep : countParticipant s1 eid uid = countParticipant s eid uid + 1 := by
      simp [countParticipant, hs1, List.countP_append, participantKeyMatches_self]
    rw [hstep, h0]
  rcases b2 with _ | _
  · -- second upsert overwrites the existing row's status in place
    obtain ⟨s2, hup2, hc2, _, _, _⟩ :=
      upsertParticipant_existing s1 eid uid
        (if ev.auto_accept then .approved else .pending) hcol1 hany1
    refine ⟨st, s1, st, s2, hjoin1, ?_, by rw [hc2, hcount1]⟩
    unfold joinEvent
    rw [hev1, hst]
    simp only [hup2]
  · -- second upsert reports 23505, tolerated as a successful no-op
    refine ⟨st, s1, st, s1, hjoin1, ?_, hcount1⟩
    unfold joinEvent
    rw [hev1, hst]
    simp only [upsertParticipant, hcol, hcol1, Bool.true_and, Option.isSome_some,
      Bool.not_true, Bool.and_false, Bool.false_eq_true, if_false, hany1, if_true,
      beq_self_eq_true]

theorem joinEvent_double_join_single_row_witness :
    ∃ st1 s1 st2 s2,
      joinEvent demoStore "e1" "u1" false = .ok (st1, s1) ∧
      joinEvent s1 "e1" "u1" true = .ok (st2, s2) ∧
      countParticipant s2 "e1" "u1" = 1 :=
  joinEvent_double_join_single_row demoStore "e1" "u1" demoLocalEvent false true
    (by decide) (by decide) (by decide)

/-- The missing-column error message does contain the two fragments the
TypeScript fallback detection looks for. -/
lemma statusColumnMissingErr_detected :
    (includesSubstr statusColumnMissingErr.message "status" &&
      includesSubstr statusColumnMissingErr.message "does not exist") = true := by
  decide

/-- C3: when the store reports that the optional participant `status` column
is absent, participant reads degrade instead of failing:
`getEventParticipantsWithStatus` returns every participant of the event
(each resolved against an existing profile) with status `approved`, and
`getMyParticipantStatus` returns `approved` for an existing `(event, user)`
row and `null` for an absent one; neither propagates the store error. -/
theorem participant_ops_degrade_without_status_column
    (s : Store) (eid uid : String)
    (hcol : s.hasParticipantStatusColumn = false) :
    (∀ x ∈ getEventParticipantsWithStatus s eid, x.status = .approved)
  ∧ (∀ p ∈ s.participants, p.event_id = eid →
      ∀ pr, findProfile s p.user_id = some pr →
        ∃ x ∈ getEventParticipantsWithStatus s eid, x.id = pr.id ∧ x.status = .approved)
  ∧ getMyParticipantStatus s eid uid =
      (if s.participants.any (participantKeyMatches eid uid) then some .approved
        else none) := by
  have hres : getEventParticipantsWithStatus s eid =
      (s.participants.filter (fun p => p.event_id == eid)).filterMap
        (joinParticipantProfile s .approved) := by
    unfold getEventParticipantsWithStatus
    simp only [hcol, Bool.false_eq_true, if_false, statusColumnMissingErr_detected, if_true]
  refine ⟨?_, ?_, ?_⟩
  · intro x hx
    rw [hres] at hx
    obtain ⟨p, _, hfp⟩ := List.mem_filterMap.mp hx
    unfold joinParticipantProfile at hfp
    obtain ⟨pr, _, hpr⟩ := Option.map_eq_some'.mp hfp
    rw [← hpr]
  · intro p hp hpe pr hpr
    refine ⟨{ id := pr.id, name := pr.name.getD "User", avatar_url := pr.avatar_url,
              vibe := pr.vibe, status := .approved }, ?_, rfl, rfl⟩
    rw [hres]
    refine List.mem_filterMap.mpr ⟨p, List.mem_filter.mpr ⟨hp, by simp [hpe]⟩, ?_⟩
    unfold joinParticipantProfile
    rw [hpr]
    rfl
  · unfold getMyParticipantStatus
    simp only [hcol, Bool.false_eq_true, if_false, statusColumnMissingErr_detected, if_true]

/-- A concrete store with the `status` column absent: one event, one
participant row for it, and the participant's profile. -/
def driftStore : Store :=
  { events := [demoEventRow]
    participants := [{ event_id := "e1", user_id := "u1", status := none }]
    friendships := []
    profiles := [{ id := "u1", name := some "Aman", avatar_url := none, vibe := none
                   bio := none, is_ghost := none, latitude := none, longitude := none
                   last_seen := none }]
    hasParticipantStatusColumn := false
    hasAutoAcceptColumn := true }

theorem participant_ops_degrade_without_status_column_witness :
    (∀ x ∈ getEventParticipantsWithStatus driftStore "e1", x.status = .approved)
  ∧ (∀ p ∈ driftStore.participants, p.event_id = "e1" →
      ∀ pr, findProfile driftStore p.user_id = some pr →
        ∃ x ∈ getEventParticipantsWithStatus driftStore "e1",
          x.id = pr.id ∧ x.status = .approved)
  ∧ getMyParticipantStatus driftStore "e1" "u1" =
      (if driftStore.participants.any (participantKeyMatches "e1" "u1") then some .approved
        else none) :=
  participant_ops_degrade_without_status_column driftStore "e1" "u1" (by decide)

/-- A `createEvent` input whose title has fewer than 3 characters. -/
def shortTitleInput : CreateEventInput :=
  { title := "ab", description := none, meeting_place := none, meeting_lat := none,
    meeting_lng := none, emoji := "", place_name := "Sierra", place_category := none,
    creator_id := "creator", auto_accept := none }

/-- C9 counterexample: `createEvent` with the 2-character title `"ab"`
succeeds and stores the event — this layer performs no title re-validation
(the ≥ 3 characters check lives only in the UI's `canSave`). -/
theorem createEvent_short_title_succeeds_cex :
    shortTitleInput.title.length < 3
  ∧ ((createEvent shortTitleInput "e2" "t1" demoStore).toOption.map
      (fun x => (x.1.title, x.2.events.map (fun e => e.title)))) =
        some ("ab", ["Coffee Walk", "ab"]) := by
  constructor
  · decide
  · rfl

/-- C9 (amended): `createEvent` performs no title validation at this layer:
for every input — in particular any title shorter than 3 characters — on a
store with the `auto_accept` column present it succeeds and stores an event
whose title is the input title unchanged. -/
theorem createEvent_no_title_validation
    (input : CreateEventInput) (newId now : String) (s : Store)
    (hcol : s.hasAutoAcceptColumn = true) :
    ∃ ev s1, createEvent input newId now s = .ok (ev, s1) ∧
      ev.title = input.title ∧ s1.events.length = s.events.length + 1 := by
  unfold createEvent insertEvent
  simp only [hcol, Bool.not_true, Bool.and_false, Bool.false_eq_true, if_false]
  exact ⟨_, _, rfl, rfl, by simp⟩

theorem createEvent_no_title_validation_witness :
    ∃ ev s1, createEvent shortTitleInput "e3" "t1" demoStore = .ok (ev, s1)
      ∧ ev.title = shortTitleInput.title
      ∧ s1.events.length = demoStore.events.length + 1 :=
  createEvent_no_title_validation shortTitleInput "e3" "t1" demoStore (by decide)

/-- C10: a missing `auto_accept` value defaults to true throughout:
`mapToLocalEvent` reports `auto_accept = true` for any row whose stored
flag is not `some false`; `createEvent` persists `auto_accept = true` when
the input omits the flag; and `joinEvent` on an event row with no stored
`auto_accept` value yields status `approved`. -/
theorem auto_accept_defaults_to_true
    (row : EventRow) (jp : Option JoinedProfile)
    (hrow : row.auto_accept ≠ some false)
    (input : CreateEventInput) (hinput : input.auto_accept = none)
    (newId now : String) (s : Store) (hcolA : s.hasAutoAcceptColumn = true)
    (s2 : Store) (eid uid : String) (e : EventRow)
    (hfind : s2.events.find? (fun x => x.id == eid) = some e)
    (hnoacc : e.auto_accept = none)
    (hcolP : s2.hasParticipantStatusColumn = true) :
    (mapToLocalEvent row jp).auto_accept = true
  ∧ (∃ ev s1, createEvent input newId now s = .ok (ev, s1) ∧
      ∃ er ∈ s1.events, er.id = newId ∧ er.auto_accept = some true)
  ∧ (∃ s3, joinEvent s2 eid uid false = .ok (.approved, s3)) := by
  refine ⟨?_, ?_, ?_⟩
  · simp [mapToLocalEvent, bne_iff_ne, hrow]
  · unfold createEvent insertEvent
    simp only [hcolA, Bool.not_true, Bool.and_false, Bool.false_eq_true, if_false,
      hinput]
    refine ⟨_, _, rfl, ?_⟩
    refine ⟨{ id := newId, title := input.title, description := input.description,
              lat := input.meeting_lat, lng := input.meeting_lng,
              place_name := if input.place_name == "" then input.meeting_place
                else some input.place_name,
              emoji := if input.emoji == "" then "📍" else input.emoji,
              creator_id := input.creator_id, auto_accept := some (none != some false),
              created_at := now }, List.mem_append_right _ (by simp), rfl, rfl⟩
  · have hev2 : getEventById s2 eid =
        some (mapToLocalEvent e ((findProfile s2 e.creator_id).map fun p =>
          { name := p.name, avatar_url := p.avatar_url, vibe := p.vibe })) := by
      unfold getEventById
      rw [hfind]
      rfl
    have haa : (mapToLocalEvent e ((findProfile s2 e.creator_id).map fun p =>
        { name := p.name, avatar_url := p.avatar_url, vibe := p.vibe })).auto_accept
          = true := by
      simp [mapToLocalEvent, hnoacc]
    obtain ⟨s3, hj, _⟩ := joinEvent_auto_accept_aux s2 eid uid _ hev2 hcolP
    refine ⟨s3, ?_⟩
    rw [hj, if_pos haa]

theorem auto_accept_defaults_to_true_witness :
    (mapToLocalEvent { demoEventRow with auto_accept := none } none).auto_accept = true
  ∧ (∃ ev s1, createEvent
        { title := "Tea", description := none, meeting_place := none, meeting_lat := none,
          meeting_lng := none, emoji := "", place_name := "Sierra", place_category := none,
          creator_id := "creator", auto_accept := none } "e4" "t1" demoStore = .ok (ev, s1) ∧
      ∃ er ∈ s1.events, er.id = "e4" ∧ er.auto_accept = some true)
  ∧ (∃ s3, joinEvent
      { demoStore with events := [{ demoEventRow with auto_accept := none }] }
      "e1" "u1" false = .ok (.approved, s3)) :=
  auto_accept_defaults_to_true { demoEventRow with auto_accept := none } none (by decide)
    { title := "Tea", description := none, meeting_place := none, meeting_lat := none,
      meeting_lng := none, emoji := "", place_name := "Sierra", place_category := none,
      creator_id := "creator", auto_accept := none } rfl "e4" "t1" demoStore (by decide)
    { demoStore with events := [{ demoEventRow with auto_accept := none }] }
    "e1" "u1" { demoEventRow with auto_accept := none } (by decide) rfl (by decide)

/-- C4: friendship is symmetric once accepted — after `sendFriendRequest`
from A to B and a successful `acceptRequest` by B, `getMyFriends(A)`
contains B's profile summary and `getMyFriends(B)` contains A's:
`getMyFriends` selects accepted rows where the caller is requester OR
receiver and resolves the other party. -/
theorem friendship_symmetric_after_accept
    (s : Store) (A B newId now : String)
    (hAB : A ≠ B)
    (pA pB : ProfileRow)
    (hA : findProfile s A = some pA)
    (hB : findProfile s B = some pB)
    (hno : s.friendships.any (fun r => r.requester_id == A && r.receiver_id == B) = false) :
    ∃ s1 s2,
      sendFriendRequest (some A) B newId now s = (s1, none) ∧
      acceptRequest (some B) newId s1 = (s2, none) ∧
      (∃ f ∈ getMyFriends (some A) s2, f.friendshipId = newId ∧
        f.user = some (profileBasicOf pB)) ∧
      (∃ f ∈ getMyFriends (some B) s2, f.friendshipId = newId ∧
        f.user = some (profileBasicOf pA)) := by
  have hBA : (B == A) = false := by
    simp only [beq_eq_false_iff_ne, ne_eq]
    exact fun h => hAB h.symm
  have hABf : (A == B) = false := by
    simp only [beq_eq_false_iff_ne, ne_eq]
    exact hAB
  set row : FriendshipRow :=
    { id := newId, requester_id := A, receiver_id := B
      status := .pending, created_at := now } with hrowdef
  set s1 : Store := { s with friendships := s.friendships ++ [row] } with hs1
  have hsend : sendFriendRequest (some A) B newId now s = (s1, none) := by
    unfold sendFriendRequest insertFriendship
    simp only [hBA, Bool.false_eq_true, if_false, hno]
  set rowAcc : FriendshipRow :=
    { id := newId, requester_id := A, receiver_id := B
      status := .accepted, created_at := now } with hrowAcc
  set s2 : Store := { s1 with friendships := s1.friendships.map fun r =>
    if r.id == newId && r.receiver_id == B && r.status == FriendshipStatus.pending then
      { r with status := .accepted }
    else r } with hs2
  have hacc : acceptRequest (some B) newId s1 = (s2, none) := by
    unfold acceptRequest
    rfl
  have hmem : rowAcc ∈ s2.friendships := by
    have hrowmem : row ∈ s1.friendships := by
      simp [hs1]
    have himg : (if row.id == newId && row.receiver_id == B &&
        row.status == FriendshipStatus.pending then
          { row with status := FriendshipStatus.accepted } else row) = rowAcc := by
      simp [hrowdef, hrowAcc]
    exact himg ▸ List.mem_map_of_mem _ hrowmem
  have hprofA2 : findProfile s2 A = some pA := hA
  have hprofB2 : findProfile s2 B = some pB := hB
  refine ⟨s1, s2, hsend, hacc, ?_, ?_⟩
  · refine ⟨{ friendshipId := rowAcc.id,
              user := (findProfile s2 rowAcc.receiver_id).map profileBasicOf },
      ?_, rfl, ?_⟩
    · unfold getMyFriends
      refine List.mem_map.mpr ⟨rowAcc, List.mem_filter.mpr ⟨hmem, by simp [hrowAcc]⟩, ?_⟩
      simp [hrowAcc]
    · simp [hrowAcc, hprofB2]
  · refine ⟨{ friendshipId := rowAcc.id,
              user := (findProfile s2 rowAcc.requester_id).map profileBasicOf },
      ?_, rfl, ?_⟩
    · unfold getMyFriends
      refine List.mem_map.mpr ⟨rowAcc, List.mem_filter.mpr ⟨hmem, by simp [hrowAcc]⟩, ?_⟩
      simp [hrowAcc, hABf]
    · simp [hrowAcc, hprofA2]

/-- Two profiles and an otherwise empty store, for the friendship
witnesses. -/
def profAlice : ProfileRow :=
  { id := "alice", name := some "Alice", avatar_url := none, vibe := none, bio := none
    is_ghost := none, latitude := none, longitude := none, last_seen := none }

def profBob : ProfileRow :=
  { id := "bob", name := some "Bob", avatar_url := none, vibe := none, bio := none
    is_ghost := none, latitude := none, longitude := none, last_seen := none }

def friendStore : Store :=
  { events := [], participants := [], friendships := []
    profiles := [profAlice, profBob]
    hasParticipantStatusColumn := true, hasAutoAcceptColumn := true }

theorem friendship_symmetric_after_accept_witness :
    ∃ s1 s2,
      sendFriendRequest (some "alice") "bob" "f1" "t0" friendStore = (s1, none) ∧
      acceptRequest (some "bob") "f1" s1 = (s2, none) ∧
      (∃ f ∈ getMyFriends (some "alice") s2, f.friendshipId = "f1" ∧
        f.user = some (profileBasicOf profBob)) ∧
      (∃ f ∈ getMyFriends (some "bob") s2, f.friendshipId = "f1" ∧
        f.user = some (profileBasicOf profAlice)) :=
  friendship_symmetric_after_accept friendStore "alice" "bob" "f1" "t0" (by decide)
    profAlice profBob (by decide) (by decide) (by decide)

/-- The conditional status update of `acceptRequest`/`declineRequest` is the
identity when no row satisfies all three conditions. -/
lemma friendshipUpdate_noop (l : List FriendshipRow) (fid uid : String)
    (st : FriendshipStatus)
    (h : ∀ r ∈ l, (r.id == fid && r.receiver_id == uid &&
      r.status == FriendshipStatus.pending) = false) :
    (l.map fun r => if r.id == fid && r.receiver_id == uid &&
        r.status == FriendshipStatus.pending then { r with status := st } else r) = l := by
  induction l with
  | nil => rfl
  | cons a t ih =>
    have ha := h a (List.mem_cons_self a t)
    have ht := ih fun r hr => h r (List.mem_cons_of_mem a hr)
    rw [List.map_cons, ht, if_neg (by simp [ha])]

/-- C5: `acceptRequest` and `declineRequest` are a single conditional update
transitioning the status (to `accepted` / `rejected`) exactly of the rows
whose id matches, whose receiver is the caller and whose status is
`pending`; all other rows are untouched; a call matching zero rows leaves
the store unchanged and still reports success (`error: null`), exactly like
a call that did transition a row. -/
theorem accept_decline_conditional_and_silent
    (uid fid : String) (s : Store) :
    (acceptRequest (some uid) fid s).2 = none
  ∧ (declineRequest (some uid) fid s).2 = none
  ∧ ((∀ r ∈ s.friendships, (r.id == fid && r.receiver_id == uid &&
        r.status == FriendshipStatus.pending) = false) →
      acceptRequest (some uid) fid s = (s, none) ∧
      declineRequest (some uid) fid s = (s, none))
  ∧ (∀ r ∈ s.friendships, (r.id == fid && r.receiver_id == uid &&
        r.status == FriendshipStatus.pending) = true →
      { r with status := FriendshipStatus.accepted } ∈
          (acceptRequest (some uid) fid s).1.friendships ∧
      { r with status := FriendshipStatus.rejected } ∈
          (declineRequest (some uid) fid s).1.friendships)
  ∧ (∀ r ∈ s.friendships, (r.id == fid && r.receiver_id == uid &&
        r.status == FriendshipStatus.pending) = false →
      r ∈ (acceptRequest (some uid) fid s).1.friendships ∧
      r ∈ (declineRequest (some uid) fid s).1.friendships) := by
  refine ⟨rfl, rfl, ?_, ?_, ?_⟩
  · intro h
    have hmapA := friendshipUpdate_noop s.friendships fid uid .accepted h
    have hmapD := friendshipUpdate_noop s.friendships fid uid .rejected h
    constructor
    · simp only [acceptRequest, hmapA]
    · simp only [declineRequest, hmapD]
  · intro r hr hcond
    exact ⟨List.mem_map.mpr ⟨r, hr, by simp [hcond]⟩,
           List.mem_map.mpr ⟨r, hr, by simp [hcond]⟩⟩
  · intro r hr hcond
    exact ⟨List.mem_map.mpr ⟨r, hr, by simp [hcond]⟩,
           List.mem_map.mpr ⟨r, hr, by simp [hcond]⟩⟩

theorem accept_decline_conditional_and_silent_witness :
    (acceptRequest (some "bob") "f9" friendStore).2 = none
  ∧ (declineRequest (some "bob") "f9" friendStore).2 = none
  ∧ ((∀ r ∈ friendStore.friendships, (r.id == "f9" && r.receiver_id == "bob" &&
        r.status == FriendshipStatus.pending) = false) →
      acceptRequest (some "bob") "f9" friendStore = (friendStore, none) ∧
      declineRequest (some "bob") "f9" friendStore = (friendStore, none))
  ∧ (∀ r ∈ friendStore.friendships, (r.id == "f9" && r.receiver_id == "bob" &&
        r.status == FriendshipStatus.pending) = true →
      { r with status := FriendshipStatus.accepted } ∈
          (acceptRequest (some "bob") "f9" friendStore).1.friendships ∧
      { r with status := FriendshipStatus.rejected } ∈
          (declineRequest (some "bob") "f9" friendStore).1.friendships)
  ∧ (∀ r ∈ friendStore.friendships, (r.id == "f9" && r.receiver_id == "bob" &&
        r.status == FriendshipStatus.pending) = false →
      r ∈ (acceptRequest (some "bob") "f9" friendStore).1.friendships ∧
      r ∈ (declineRequest (some "bob") "f9" friendStore).1.friendships) :=
  accept_decline_conditional_and_silent "bob" "f9" friendStore

/-- C6: duplicate `sendFriendRequest(A, B)` calls both return success — the
uniqueness violation `23505` on the ordered pair is mapped to
`{ error: null }` — and leave exactly one friendship row for the pair, with
status `pending`. -/
theorem sendFriendRequest_duplicate_idempotent
    (s : Store) (A B id1 id2 t1 t2 : String)
    (hAB : A ≠ B)
    (h0 : countFriendship s A B = 0) :
    ∃ s1 s2,
      sendFriendRequest (some A) B id1 t1 s = (s1, none) ∧
      sendFriendRequest (some A) B id2 t2 s1 = (s2, none) ∧
      countFriendship s2 A B = 1 ∧
      ∀ r ∈ s2.friendships, (r.requester_id == A && r.receiver_id == B) = true →
        r.status = .pending := by
  have hBA : (B == A) = false := by
    simp only [beq_eq_false_iff_ne, ne_eq]
    exact fun h => hAB h.symm
  have hany : (s.friendships.any fun r => r.requester_id == A && r.receiver_id == B)
      = false := by
    rcases h : s.friendships.any fun r => r.requester_id == A && r.receiver_id == B
    · rfl
    · obtain ⟨r0, hr0mem, hr0key⟩ := List.any_eq_true.mp h
      exact absurd hr0key (List.countP_eq_zero.mp h0 r0 hr0mem)
  set row : FriendshipRow :=
    { id := id1, requester_id := A, receiver_id := B
      status := .pending, created_at := t1 } with hrowdef
  set s1 : Store := { s with friendships := s.friendships ++ [row] } with hs1
  have hsend1 : sendFriendRequest (some A) B id1 t1 s = (s1, none) := by
    unfold sendFriendRequest insertFriendship
    simp only [hBA, Bool.false_eq_true, if_false, hany]
  have hany1 : (s1.friendships.any fun r => r.requester_id == A && r.receiver_id == B)
      = true := by
    simp [hs1, List.any_append, hrowdef]
  have hsend2 : sendFriendRequest (some A) B id2 t2 s1 = (s1, none) := by
    unfold sendFriendRequest insertFriendship
    simp only [hBA, Bool.false_eq_true, if_false, hany1, if_true, beq_self_eq_true]
  refine ⟨s1, s1, hsend1, hsend2, ?_, ?_⟩
  · have : countFriendship s1 A B = countFriendship s A B + 1 := by
      simp [countFriendship, hs1, List.countP_append, hrowdef]
    rw [this, h0]
  · intro r hr hkey
    rw [hs1] at hr
    rcases List.mem_append.mp hr with hmem | hmem
    · exact absurd hkey (List.countP_eq_zero.mp h0 r hmem)
    · rw [List.mem_singleton.mp hmem, hrowdef]

theorem sendFriendRequest_duplicate_idempotent_witness :
    ∃ s1 s2,
      sendFriendRequest (some "alice") "bob" "f1" "t0" friendStore = (s1, none) ∧
      sendFriendRequest (some "alice") "bob" "f2" "t1" s1 = (s2, none) ∧
      countFriendship s2 "alice" "bob" = 1 ∧
      ∀ r ∈ s2.friendships, (r.requester_id == "alice" && r.receiver_id == "bob") = true →
        r.status = .pending :=
  sendFriendRequest_duplicate_idempotent friendStore "alice" "bob" "f1" "f2" "t0" "t1"
    (by decide) (by decide)

/-- C7: `updateMyLocation` writes only `last_seen` plus the coordinate
columns on the caller's own row: with the ghost flag set it refreshes
`last_seen` and nulls the stored coordinates (the passed coordinates are
never persisted); with the flag unset it writes `latitude`, `longitude` and
`last_seen` together.  Rows of other users — and every other field of the
caller's row — are untouched. -/
theorem updateMyLocation_respects_ghost
    (uid : String) (lat lng : Int) (now : String) (s : Store) (p : ProfileRow)
    (hp : findProfile s uid = some p) :
    (∀ q ∈ s.profiles, q.id ≠ uid →
      q ∈ (updateMyLocation (some uid) lat lng now s).profiles)
  ∧ (p.is_ghost = some true →
      { p with last_seen := some now, latitude := none, longitude := none }
        ∈ (updateMyLocation (some uid) lat lng now s).profiles)
  ∧ (p.is_ghost ≠ some true →
      { p with last_seen := some now, latitude := some lat, longitude := some lng }
        ∈ (updateMyLocation (some uid) lat lng now s).profiles) := by
  have hpmem : p ∈ s.profiles := List.mem_of_find?_eq_some hp
  have hpid : (p.id == uid) = true := by
    have := List.find?_some hp
    exact this
  refine ⟨?_, ?_, ?_⟩
  · intro q hq hqid
    have hqid2 : (q.id == uid) = false := by
      simp only [beq_eq_false_iff_ne, ne_eq]
      exact hqid
    refine List.mem_map.mpr ⟨q, hq, ?_⟩
    simp [updateMyLocation, hqid2]
  · intro hghost
    have hg2 : (p.is_ghost == some true) = true := by
      simp [hghost]
    refine List.mem_map.mpr ⟨p, hpmem, ?_⟩
    simp only [updateMyLocation, findProfile] at *
    simp [hp, hpid, hg2]
  · intro hghost
    have hg2 : (p.is_ghost == some true) = false := by
      simp only [beq_eq_false_iff_ne, ne_eq]
      exact hghost
    refine List.mem_map.mpr ⟨p, hpmem, ?_⟩
    simp only [updateMyLocation, findProfile] at *
    simp [hp, hpid, hg2]

/-- A ghost-mode profile and a visible profile in one store, for the C7
witness. -/
def ghostStore : Store :=
  { events := [], participants := [], friendships := []
    profiles := [{ id := "ghost1", name := some "Casper", avatar_url := none
                   vibe := none, bio := none, is_ghost := some true
                   latitude := some 42, longitude := some 74
                   last_seen := some "2026-01-01T00:00:00Z" }]
    hasParticipantStatusColumn := true, hasAutoAcceptColumn := true }

theorem updateMyLocation_respects_ghost_witness :
    (∀ q ∈ ghostStore.profiles, q.id ≠ "ghost1" →
      q ∈ (updateMyLocation (some "ghost1") 10 20 "t2" ghostStore).profiles)
  ∧ (({ id := "ghost1", name := some "Casper", avatar_url := none
        vibe := none, bio := none, is_ghost := some true
        latitude := some 42, longitude := some 74
        last_seen := some "2026-01-01T00:00:00Z" } : ProfileRow).is_ghost = some true →
      { id := "ghost1", name := some "Casper", avatar_url := none
        vibe := none, bio := none, is_ghost := some true
        latitude := none, longitude := none, last_seen := some "t2" }
        ∈ (updateMyLocation (some "ghost1") 10 20 "t2" ghostStore).profiles)
  ∧ (({ id := "ghost1", name := some "Casper", avatar_url := none
        vibe := none, bio := none, is_ghost := some true
        latitude := some 42, longitude := some 74
        last_seen := some "2026-01-01T00:00:00Z" } : ProfileRow).is_ghost ≠ some true →
      { id := "ghost1", name := some "Casper", avatar_url := none
        vibe := none, bio := none, is_ghost := some true
        latitude := some 10, longitude := some 20, last_seen := some "t2" }
        ∈ (updateMyLocation (some "ghost1") 10 20 "t2" ghostStore).profiles) :=
  updateMyLocation_respects_ghost "ghost1" 10 20 "t2" ghostStore
    { id := "ghost1", name := some "Casper", avatar_url := none
      vibe := none, bio := none, is_ghost := some true
      latitude := some 42, longitude := some 74
      last_seen := some "2026-01-01T00:00:00Z" } (by decide)

/-- Every canned-reply pool is non-empty (each per-identity pool and the
generic fallback hold five replies). -/
lemma replyPool_length_pos (name : String) : 0 < (replyPool name).length := by
  unfold replyPool botReplies genericReplies
  split_ifs <;> simp

/-- For a random draw `r ∈ [0, 1)`, `getRandomReply` picks an element of the
identity's canned-reply pool. -/
lemma getRandomReply_mem (name : String) (r : ℚ) (h0 : 0 ≤ r) (h1 : r < 1) :
    getRandomReply name r ∈ replyPool name := by
  unfold getRandomReply
  set l := replyPool name with hl
  have hlen : 0 < l.length := by rw [hl]; exact replyPool_length_pos name
  have hcast : (0 : ℚ) < (l.length : ℚ) := by exact_mod_cast hlen
  have hfl0 : 0 ≤ ⌊r * (l.length : ℚ)⌋ :=
    Int.floor_nonneg.mpr (mul_nonneg h0 (le_of_lt hcast))
  have hflt : ⌊r * (l.length : ℚ)⌋ < (l.length : ℤ) := by
    rw [Int.floor_lt]
    calc r * (l.length : ℚ) < 1 * (l.length : ℚ) := mul_lt_mul_of_pos_right h1 hcast
      _ = (((l.length : ℤ) : ℚ)) := by push_cast; ring
  have hidx : (⌊r * (l.length : ℚ)⌋).toNat < l.length := by omega
  rw [List.getD_eq_getElem l "" hidx]
  exact List.getElem_mem hidx

/-- The preview update of `sendDMMessage` commutes with looking the chat up
by id: finding in the updated list yields the updated found chat. -/
lemma find?_previewUpdate (l : List DMChat) (chatId body now : String) :
    ((l.map fun c => if c.id == chatId then
        { c with lastMessage := truncatePreview body, updatedAt := now } else c).find?
      (fun c => c.id == chatId)) =
    (l.find? (fun c => c.id == chatId)).map fun c =>
      if c.id == chatId then
        { c with lastMessage := truncatePreview body, updatedAt := now } else c := by
  rw [List.find?_map]
  have hcomp : ((fun c => c.id == chatId) ∘ fun c =>
      if c.id == chatId then
        { c with lastMessage := truncatePreview body, updatedAt := now } else c) =
      fun c : DMChat => c.id == chatId := by
    funext c
    by_cases hc : c.id = chatId <;> simp [hc]
  rw [hcomp]

/-- The scheduled-reply component of `sendDMMessage`, by definition. -/
lemma sendDMMessage_sched (chatId body myUserId : String) (mp : DMAuthor)
    (simFlag : Bool) (msgId now replyId replyNow : String) (rDelay rReply : ℚ)
    (s : DMStore) :
    (sendDMMessage chatId body myUserId mp simFlag msgId now replyId replyNow
        rDelay rReply s).2.2 =
      if simFlag then
        match (s.chats.map fun c => if c.id == chatId then
            { c with lastMessage := truncatePreview body, updatedAt := now } else c).find?
            (fun c => c.id == chatId) with
        | some chat =>
          if demoNames.contains chat.userName.toLower then
            some { delayMs := 2000 + rDelay * 2000
                   msg := { id := replyId, chatId := chatId, senderId := chatId
                            body := getRandomReply chat.userName rReply
                            created_at := replyNow
                            author := { name := chat.userName
                                        avatar_url := chat.userAvatar
                                        vibe := chat.userVibe } } }
          else none
        | none => none
      else none := rfl

/-- C8: `sendDMMessage` schedules a simulated reply exactly when the chat's
counterpart is one of the designated demo identities (and the simulation
flag is on): the reply fires after `2000 + random·2000 ∈ [2000, 4000)`
milliseconds, its `senderId` is the counterpart's identifier (the chat id),
its author snapshot carries the counterpart's name, and its body is drawn
from that identity's canned-reply pool (`replyPool` falls back to the
generic pool for unrecognized names); for a non-demo counterpart no reply
is ever scheduled. -/
theorem sendDMMessage_simulated_reply
    (chatId body myUserId : String) (mp : DMAuthor) (simFlag : Bool)
    (msgId now replyId replyNow : String) (rDelay rReply : ℚ) (s : DMStore)
    (hd0 : 0 ≤ rDelay) (hd1 : rDelay < 1) (hr0 : 0 ≤ rReply) (hr1 : rReply < 1) :
    (∀ rep, (sendDMMessage chatId body myUserId mp simFlag msgId now replyId replyNow
        rDelay rReply s).2.2 = some rep →
      simFlag = true ∧
      ∃ chat0 ∈ s.chats, chat0.id = chatId ∧
        demoNames.contains chat0.userName.toLower = true ∧
        rep.msg.senderId = chatId ∧
        rep.msg.author.name = chat0.userName ∧
        2000 ≤ rep.delayMs ∧ rep.delayMs < 4000 ∧
        rep.msg.body ∈ replyPool chat0.userName)
  ∧ ((∀ chat0 ∈ s.chats, chat0.id = chatId →
        demoNames.contains chat0.userName.toLower = false) →
      (sendDMMessage chatId body myUserId mp simFlag msgId now replyId replyNow
        rDelay rReply s).2.2 = none) := by
  rw [sendDMMessage_sched, find?_previewUpdate]
  rcases simFlag with _ | _
  · simp
  · simp only [if_true]
    rcases hfind : s.chats.find? (fun c => c.id == chatId) with _ | c0
    · rw [hfind]
      simp
    · have hc0mem : c0 ∈ s.chats := List.mem_of_find?_eq_some hfind
      have hc0id : c0.id = chatId := by
        have := List.find?_some hfind
        simpa using this
      have hidtrue : (c0.id == chatId) = true := by simp [hc0id]
      rw [hfind]
      simp only [Option.map_some']
      rw [if_pos hidtrue]
      by_cases hdemo : demoNames.contains c0.userName.toLower = true
      · simp only [hdemo, if_true]
        constructor
        · intro rep hrep
          obtain rfl : { delayMs := 2000 + rDelay * 2000
                         msg := { id := replyId, chatId := chatId, senderId := chatId
                                  body := getRandomReply c0.userName rReply
                                  created_at := replyNow
                                  author := { name := c0.userName
                                              avatar_url := c0.userAvatar
                                              vibe := c0.userVibe } } } = rep :=
            Option.some.inj hrep
          refine ⟨by trivial, c0, hc0mem, hc0id, hdemo, rfl, rfl, ?_, ?_, ?_⟩
          · show (2000 : ℚ) ≤ 2000 + rDelay * 2000
            have : 0 ≤ rDelay * 2000 := mul_nonneg hd0 (by norm_num)
            linarith
          · show 2000 + rDelay * 2000 < (4000 : ℚ)
            have : rDelay * 2000 < 1 * 2000 :=
              mul_lt_mul_of_pos_right hd1 (by norm_num)
            linarith
          · exact getRandomReply_mem c0.userName rReply hr0 hr1
        · intro hall
          exact absurd (hall c0 hc0mem hc0id) (by simpa using hdemo)
      · have hdemof : demoNames.contains c0.userName.toLower = false := by
          simpa using hdemo
        have hnotmem : c0.userName.toLower ∉ demoNames := by simpa using hdemof
        simp [hdemof, hnotmem]

/-- A DM store with one demo chat, for the C8 witness. -/
def demoDMStore : DMStore :=
  { chats := [{ id := "aisuluu", userName := "Aisuluu", userAvatar := none
                userVibe := none, lastMessage := "", updatedAt := "t0" }]
    messages := [] }

theorem sendDMMessage_simulated_reply_witness :
    (∀ rep, (sendDMMessage "aisuluu" "hello" "viewer"
        { name := "V", avatar_url := none, vibe := none } true
        "m1" "t1" "m2" "t2" 0 0 demoDMStore).2.2 = some rep →
      true = true ∧
      ∃ chat0 ∈ demoDMStore.chats, chat0.id = "aisuluu" ∧
        demoNames.contains chat0.userName.toLower = true ∧
        rep.msg.senderId = "aisuluu" ∧
        rep.msg.author.name = chat0.userName ∧
        2000 ≤ rep.delayMs ∧ rep.delayMs < 4000 ∧
        rep.msg.body ∈ replyPool chat0.userName)
  ∧ ((∀ chat0 ∈ demoDMStore.chats, chat0.id = "aisuluu" →
        demoNames.contains chat0.userName.toLower = false) →
      (sendDMMessage "aisuluu" "hello" "viewer"
        { name := "V", avatar_url := none, vibe := none } true
        "m1" "t1" "m2" "t2" 0 0 demoDMStore).2.2 = none) :=
  sendDMMessage_simulated_reply "aisuluu" "hello" "viewer"
    { name := "V", avatar_url := none, vibe := none } true
    "m1" "t1" "m2" "t2" 0 0 demoDMStore
    (by norm_num) (by norm_num) (by norm_num) (by norm_num)

end NomadEvents
